import Mathlib

/-!
Verification of the Meteorite Landings Explorer core
(`FinalProject_WG.py`) against its natural-language specification.

The Python source is shallowly embedded: dataframes become `List Record`,
column operations become list operations, pandas missing values (`NaN`)
become `Option.none`, and numeric columns are modelled over `ℚ`
(pandas floats ordered by `≤`, with exact division for the gram→kilogram
conversion).  Each definition is annotated with the source lines it embeds.
-/

namespace MeteoriteLandings

open List

/-! ## String cleaning primitives -/

/-- Whitespace characters removed by Python's `str.strip()` (ASCII range). -/
def isPySpace (c : Char) : Bool :=
  c == ' ' || c == '\t' || c == '\n' || c == '\x0b' || c == '\x0c' || c == '\r'

/-- Python `str.strip()`: drop leading and trailing whitespace. -/
def pyStrip (cs : List Char) : List Char :=
  ((cs.dropWhile isPySpace).reverse.dropWhile isPySpace).reverse

/-- Python `str.replace('\d+', '', regex=True)`: replacing every maximal digit run
by the empty string deletes exactly the digit characters. -/
def removeDigits (cs : List Char) : List Char :=
  cs.filter (fun c => !c.isDigit)

/-- Classification cleaning, source line 73:
`df['Classification'].str.replace('\d+', '', regex=True).str.strip()`. -/
def cleanClassification (s : String) : String :=
  ⟨pyStrip (removeDigits s.data)⟩

/-! ## Numeric coercion -/

/-- Digit list to natural number (callers supply digit characters only). -/
def parseDigits (cs : List Char) : Nat :=
  cs.foldl (fun n c => n * 10 + (c.toNat - 48)) 0

/-- Model of `pd.to_numeric(..., errors='coerce')`, source line 74, on one cell:
an optional sign, a decimal integer part and an optional fractional part
parse to their rational value; any other text coerces to the missing
marker `none` (pandas `NaN`) instead of raising. -/
def pyToNumeric (s : String) : Option ℚ :=
  let step : Int × List Char → Option ℚ := fun (sign, cs) =>
    let intPart := cs.takeWhile Char.isDigit
    let rest := cs.dropWhile Char.isDigit
    match rest with
    | [] =>
      if intPart.isEmpty then none
      else some ((sign : ℚ) * (parseDigits intPart : ℚ))
    | '.' :: frac =>
      if frac.all Char.isDigit && !(intPart.isEmpty && frac.isEmpty) then
        some ((sign : ℚ) *
          ((parseDigits intPart : ℚ) + (parseDigits frac : ℚ) / (10 : ℚ) ^ frac.length))
      else none
    | _ => none
  match pyStrip s.data with
  | [] => none
  | '-' :: cs => step (-1, cs)
  | '+' :: cs => step (1, cs)
  | cs => step (1, cs)

/-! ## The static classification lookup, source lines 12–47 -/

/-- The lookup `meteorite_class`: the static raw-code → category mapping, in source
order.  Python dict lookup is modelled by `List.find?` on the key;
the keys are pairwise distinct so association-list lookup agrees with
dict lookup. -/
def meteorite_class : List (String × String) :=
  [("CB", "Carbonaceous Chondrite"), ("CH", "Carbonaceous Chondrite"),
   ("CK", "Carbonaceous Chondrite"), ("CM", "Carbonaceous Chondrite"),
   ("CR", "Carbonaceous Chondrite"), ("CV", "Carbonaceous Chondrite"),
   ("CO", "Carbonaceous Chondrite"), ("CI", "Carbonaceous Chondrite"),
   ("H", "Ordinary Chondrite"), ("L", "Ordinary Chondrite"), ("LL", "Ordinary Chondrite"),
   ("R", "Rumuruti Chondrite"),
   ("EH", "Enstatite Chondrite"), ("EL", "Enstatite Chondrite"),
   ("Lodranite", "Primitive Achondrite"), ("Acapulcoite", "Primitive Achondrite"),
   ("Winonaite", "Primitive Achondrite"),
   ("Shergottite", "Martian"), ("Nakhlite", "Martian"), ("Chassignite", "Martian"),
   ("Aubrite", "Aubrite"),
   ("Ureilite", "Ureilite"),
   ("Howardite", "HED"), ("Eucrite", "HED"), ("Diogenite", "HED"),
   ("Angrite", "Angrite"),
   ("Brachinite", "Brachinite"),
   ("Feldspathic Breccia", "Lunar"), ("Basaltic", "Lunar"), ("Polymict", "Lunar"),
   ("IAB", "Iron Meteorite"), ("IIAB", "Iron Meteorite"),
   ("IIIAB", "Iron Meteorite"), ("IVAB", "Iron Meteorite"),
   ("Pallasite", "Stony-Iron"), ("Mesosiderite", "Stony-Iron")]

/-- Model of `Series.map(meteorite_class)` on one cell, source line 250: dict
lookup, missing key ↦ `NaN` (here `none`), never an error. -/
def classify (code : String) : Option String :=
  (meteorite_class.find? (fun p => p.1 == code)).map Prod.snd

/-! ## Records -/

/-- One raw CSV row (after `set_index('id')`), before cleaning.
`mass_g`, `reclat`, `reclong` are numeric CSV columns that may be empty
(`none` = `NaN`); `year` is the raw cell text fed to `pd.to_numeric`. -/
structure RawRecord where
  id : Int
  name : String
  nametype : String
  recclass : String
  mass_g : Option ℚ
  fall : String
  year : String
  reclat : Option ℚ
  reclong : Option ℚ
  geolocation : String
deriving DecidableEq, Repr

/-- One row of the canonical Dataset, with the renamed display columns
of source lines 62–70 plus the derived `Type` column of line 250
(`none` until the Classifier fills it). -/
structure Record where
  id : Int
  name : String
  classification : String
  mass : Option ℚ
  discovery_type : String
  year : Option ℚ
  latitude : Option ℚ
  longitude : Option ℚ
  type : Option String
deriving DecidableEq, Repr

/-- Per-row effect of `read_meteorite_date`: drop `nametype`/`GeoLocation`,
rename columns, clean the classification (line 73), coerce the year
(line 74).  The `Type` column does not exist yet. -/
def cleanRecord (r : RawRecord) : Record :=
  { id := r.id
    name := r.name
    classification := cleanClassification r.recclass
    mass := r.mass_g
    discovery_type := r.fall
    year := pyToNumeric r.year
    latitude := r.reclat
    longitude := r.reclong
    type := none }

/-- The loader `read_meteorite_date`, source lines 56–77: returns the cleaned
Dataset together with the record count taken on the raw frame
(line 58, before any cleaning). -/
def read_meteorite_date (raws : List RawRecord) : List Record × Nat :=
  let total_records := raws.length
  (raws.map cleanRecord, total_records)

/-- Source `get_df_count`, lines 51–52. -/
def get_df_count (df : List Record) : Nat :=
  df.length

/-- The Classifier step, source line 250:
`meteorite_data["Type"] = meteorite_data["Classification"].map(meteorite_class)`. -/
def addType (df : List Record) : List Record :=
  df.map (fun r => { r with type := classify r.classification })

/-! ## The Filter Engine, source lines 330–347 -/

/-- A sidebar filter selection: multiselected categories, the year slider
interval (integers, line 268) and the mass slider interval (line 281). -/
structure Selection where
  types : List String
  ymin : Int
  ymax : Int
  mmin : ℚ
  mmax : ℚ
deriving DecidableEq, Repr

/-- The type predicate of line 334: `filtered_data["Type"].isin(selected_types)`.
A missing (`NaN`) category is never `isin` any list. -/
def typePred (sel : Selection) (r : Record) : Bool :=
  match r.type with
  | some t => decide (t ∈ sel.types)
  | none => false

/-- The mass predicate of lines 337–340; pandas comparisons with `NaN`
are false, so an absent mass fails the conjunction. -/
def massPred (sel : Selection) (r : Record) : Bool :=
  match r.mass with
  | some m => decide (sel.mmin ≤ m) && decide (m ≤ sel.mmax)
  | none => false

/-- The year predicate of lines 344–347, applied after
`dropna(subset=['Year'])` (line 343). -/
def yearPred (sel : Selection) (r : Record) : Bool :=
  match r.year with
  | some y => decide ((sel.ymin : ℚ) ≤ y) && decide (y ≤ (sel.ymax : ℚ))
  | none => false

/-- The Filter Engine, source lines 330–347: start from a copy of the
canonical Dataset; apply the `isin` type filter only when the selection
is non-empty (line 333 `if selected_types:`); then the mass interval
mask, then `dropna` on Year, then the year interval mask. -/
def filterEngine (df : List Record) (sel : Selection) : List Record :=
  let fd := df
  let fd := if sel.types.isEmpty then fd else fd.filter (typePred sel)
  let fd := fd.filter (massPred sel)
  let fd := fd.filter (fun r => r.year.isSome)
  let fd := fd.filter (yearPred sel)
  fd

/-- Python `int()` cast of a float: truncation toward zero. -/
def pyIntCast (q : ℚ) : Int :=
  Int.tdiv q.num (q.den : Int)

/-- The cast `filtered_data['Year'] = filtered_data['Year'].astype(int)`,
source line 350, applied to the derived copy for display. -/
def castYear (r : Record) : Record :=
  { r with year := r.year.map (fun y => ((pyIntCast y : Int) : ℚ)) }

/-- The two dataframe variables of `main` that exist during one render
pass: the canonical Dataset and the filtered view. -/
structure AppState where
  meteorite_data : List Record
  filtered_data : List Record
deriving DecidableEq, Repr

/-- Lines 330–350 of `main` as a state transformation: the filtered view
is recomputed from a copy of the canonical Dataset; only the copy is
written to (the `astype(int)` display cast of line 350 included). -/
def applyFilters (st : AppState) (sel : Selection) : AppState :=
  { meteorite_data := st.meteorite_data
    filtered_data := (filterEngine st.meteorite_data sel).map castYear }

/-! ## Sorting primitive

`Series.sort_values` in pandas computes a stable ascending argsort of the
key column and, for `ascending=False`, reverses it (`nargsort`).  We model
that directly: `pySortAsc key` is a stable ascending insertion sort on the
key, and `pySortDesc key` is that sort followed by a reversal.  (The
underlying argsort is stable at the scales involved here: `value_counts`
sorts with a stable kind, and numpy's quicksort runs its stable insertion
phase on partitions as small as the ≤ 14 distinct category labels this
program can produce.) -/

/-- Stable insertion of `a` into `l`: `a` goes in front of the first
element whose key is ≥ its own, hence before every equal-keyed element
already present. -/
def pyInsAsc {α β : Type} [LinearOrder β] (key : α → β) (a : α) : List α → List α
  | [] => [a]
  | b :: l => if key a ≤ key b then a :: b :: l else b :: pyInsAsc key a l

/-- Stable ascending sort by `key` (insertion sort). -/
def pySortAsc {α β : Type} [LinearOrder β] (key : α → β) (l : List α) : List α :=
  l.foldr (pyInsAsc key) []

/-- Model of `sort_values(ascending=False)`: stable ascending argsort, reversed. -/
def pySortDesc {α β : Type} [LinearOrder β] (key : α → β) (l : List α) : List α :=
  (pySortAsc key l).reverse

/-! ## Aggregator: category totals, source line 175 -/

/-- The distinct values of a list in order of first occurrence (the key
order a pandas counting hashtable reports). -/
def firstOccur : List String → List String
  | [] => []
  | x :: xs => x :: (firstOccur xs).filter (fun y => y ≠ x)

/-- Multiplicity table of a list of category labels, keys in first-
occurrence order. -/
def countsFor (xs : List String) : List (String × Nat) :=
  (firstOccur xs).map (fun c => (c, xs.count c))

/-- Model of `Series.value_counts()`: count the non-missing values, sorted by
count descending (stable argsort, reversed). -/
def value_counts (xs : List String) : List (String × Nat) :=
  pySortDesc (fun p => p.2) (countsFor xs)

/-- The non-absent `Type` cells of a Dataset, in row order (pandas
`value_counts` ignores `NaN`). -/
def typesOf (df : List Record) : List String :=
  df.filterMap (fun r => r.type)

/-- The data of Chart 2, source line 175:
`df["Type"].value_counts().sort_values(ascending=False)`. -/
def chart_type_distribution (df : List Record) : List (String × Nat) :=
  pySortDesc (fun p => p.2) (value_counts (typesOf df))

/-! ## Aggregator: top-N by mass, source lines 198–218 -/

/-- The rows surviving lines 204–210: present mass, present year, year
inside the inclusive interval. -/
def qualifying (df : List Record) (ymin ymax : Int) : List Record :=
  ((df.filter (fun r => r.mass.isSome && r.year.isSome)).filter
    (fun r => match r.year with
      | some y => decide ((ymin : ℚ) ≤ y) && decide (y ≤ (ymax : ℚ))
      | none => false))

/-- The mass key used by the sorts of lines 213 and 218 (every sorted row
has a present mass, so the default is never consulted). -/
def massKey (r : Record) : ℚ :=
  r.mass.getD 0

/-- The data of Chart 3, source lines 198–218: drop rows with missing
mass or year, keep the year interval, sort by mass descending, take the
first 10, derive `Mass (kg) = Mass (g) / 1000`, and re-sort ascending by
the kilogram column.  Each output row is the record paired with its
kilogram mass. -/
def chart_top_mass_by_year (df : List Record) (ymin ymax : Int) :
    List (Record × ℚ) :=
  let df_filtered := qualifying df ymin ymax
  let top_10 := (pySortDesc massKey df_filtered).take 10
  let top_10kg := top_10.map (fun r => (r, massKey r / 1000))
  pySortAsc (fun p => p.2) top_10kg

/-- The Chart 3 call in `main`, source line 382: it receives the canonical
`meteorite_data` (not the filtered view) and only the year slider of the
selection. -/
def runTopMassView (meteorite_data : List Record) (sel : Selection) :
    List (Record × ℚ) :=
  chart_top_mass_by_year meteorite_data sel.ymin sel.ymax

/-! ## Lemmas about the sorting primitive -/

section SortLemmas

variable {α β : Type} [LinearOrder β] (key : α → β)

theorem perm_pyInsAsc (a : α) (l : List α) : pyInsAsc key a l ~ a :: l := by
  induction l with
  | nil => exact List.Perm.refl _
  | cons b l ih =>
    by_cases h : key a ≤ key b
    · simp [pyInsAsc, h]
    · simp only [pyInsAsc, if_neg h]
      exact (ih.cons b).trans (List.Perm.swap a b l)

theorem perm_pySortAsc (l : List α) : pySortAsc key l ~ l := by
  induction l with
  | nil => exact List.Perm.refl _
  | cons a l ih =>
    exact (perm_pyInsAsc key a (pySortAsc key l)).trans (ih.cons a)

theorem mem_pyInsAsc {x a : α} {l : List α} :
    x ∈ pyInsAsc key a l ↔ x = a ∨ x ∈ l := by
  rw [(perm_pyInsAsc key a l).mem_iff, List.mem_cons]

theorem sorted_pyInsAsc (a : α) {l : List α}
    (h : l.Pairwise (fun x y => key x ≤ key y)) :
    (pyInsAsc key a l).Pairwise (fun x y => key x ≤ key y) := by
  induction l with
  | nil => simp [pyInsAsc]
  | cons b l ih =>
    rcases List.pairwise_cons.mp h with ⟨hb, hl⟩
    by_cases hab : key a ≤ key b
    · simp only [pyInsAsc, if_pos hab]
      refine List.pairwise_cons.mpr ⟨?_, h⟩
      intro x hx
      rcases List.mem_cons.mp hx with rfl | hx
      · exact hab
      · exact hab.trans (hb x hx)
    · simp only [pyInsAsc, if_neg hab]
      refine List.pairwise_cons.mpr ⟨?_, ih hl⟩
      intro x hx
      rcases (mem_pyInsAsc key).mp hx with rfl | hx
      · exact (le_of_not_le hab)
      · exact hb x hx

theorem sorted_pySortAsc (l : List α) :
    (pySortAsc key l).Pairwise (fun x y => key x ≤ key y) := by
  induction l with
  | nil => simp [pySortAsc]
  | cons a l ih => exact sorted_pyInsAsc key a ih

theorem filter_key_pyInsAsc (a : α) (l : List α) (n : β) :
    (pyInsAsc key a l).filter (fun x => decide (key x = n)) =
      if key a = n then a :: l.filter (fun x => decide (key x = n))
      else l.filter (fun x => decide (key x = n)) := by
  induction l with
  | nil => by_cases h : key a = n <;> simp [pyInsAsc, List.filter_cons, h]
  | cons b l ih =>
    by_cases hab : key a ≤ key b
    · rw [show pyInsAsc key a (b :: l) = a :: b :: l by simp [pyInsAsc, hab]]
      simp [List.filter_cons]
    · rw [show pyInsAsc key a (b :: l) = b :: pyInsAsc key a l by
        simp [pyInsAsc, hab]]
      have hba : key b < key a := lt_of_not_le hab
      by_cases ha : key a = n
      · have hb : ¬ key b = n := fun e => by
          rw [e, ha] at hba; exact lt_irrefl n hba
        simp [List.filter_cons, ha, hb, ih]
      · by_cases hb : key b = n <;> simp [List.filter_cons, ha, hb, ih]

theorem filter_key_pySortAsc (l : List α) (n : β) :
    (pySortAsc key l).filter (fun x => decide (key x = n)) =
      l.filter (fun x => decide (key x = n)) := by
  induction l with
  | nil => rfl
  | cons a l ih =>
    show ((pyInsAsc key a (pySortAsc key l)).filter _) = _
    rw [filter_key_pyInsAsc, ih, List.filter_cons]
    by_cases h : key a = n <;> simp [h]

theorem perm_pySortDesc (l : List α) : pySortDesc key l ~ l :=
  (List.reverse_perm _).trans (perm_pySortAsc key l)

theorem sorted_pySortDesc (l : List α) :
    (pySortDesc key l).Pairwise (fun x y => key y ≤ key x) := by
  exact (List.pairwise_reverse).mpr (sorted_pySortAsc key l)

theorem filter_key_pySortDesc (l : List α) (n : β) :
    (pySortDesc key l).filter (fun x => decide (key x = n)) =
      (l.filter (fun x => decide (key x = n))).reverse := by
  unfold pySortDesc
  rw [List.filter_reverse, filter_key_pySortAsc]

end SortLemmas

/-! ## Lemmas about the counting table -/

theorem mem_firstOccur {xs : List String} {a : String} :
    a ∈ firstOccur xs ↔ a ∈ xs := by
  induction xs with
  | nil => simp [firstOccur]
  | cons x xs ih =>
    simp only [firstOccur, List.mem_cons, List.mem_filter, decide_eq_true_eq]
    by_cases h : a = x <;> simp [h, ih]

theorem nodup_firstOccur (xs : List String) : (firstOccur xs).Nodup := by
  induction xs with
  | nil => simp [firstOccur]
  | cons x xs ih =>
    refine List.nodup_cons.mpr ⟨?_, ih.filter _⟩
    intro hmem
    exact absurd rfl (decide_eq_true_eq.mp (List.mem_filter.mp hmem).2)

theorem perm_cons_filter_ne {F : List String} (d : F.Nodup) {x : String}
    (h : x ∈ F) : F ~ x :: F.filter (fun y => decide (y ≠ x)) := by
  induction F with
  | nil => cases h
  | cons b F ih =>
    rcases List.nodup_cons.mp d with ⟨hbF, dF⟩
    rcases List.mem_cons.mp h with rfl | hxF
    · have hfix : F.filter (fun y => decide (y ≠ x)) = F :=
        List.filter_eq_self.mpr
          (fun y hy => decide_eq_true (fun e => hbF (e ▸ hy)))
      have hc : decide (x ≠ x) = false := by simp
      rw [List.filter_cons, hc, if_neg (by simp), hfix]
    · have hbx : ¬ (b = x) := fun e => hbF (e ▸ hxF)
      have hc : decide (b ≠ x) = true := decide_eq_true hbx
      rw [List.filter_cons, hc, if_pos rfl]
      exact ((ih dF hxF).cons b).trans (List.Perm.swap x b _)

theorem sum_counts :
    ∀ xs : List String,
      ((firstOccur xs).map (fun c => xs.count c)).sum = xs.length := by
  intro xs
  induction xs with
  | nil => simp [firstOccur]
  | cons x xs ih =>
    have hcongr : (((firstOccur xs).filter (fun y => decide (y ≠ x))).map
        (fun c => (x :: xs).count c)) =
        (((firstOccur xs).filter (fun y => decide (y ≠ x))).map
        (fun c => xs.count c)) := by
      refine List.map_congr_left (fun c hc => ?_)
      have hcx : c ≠ x := decide_eq_true_eq.mp (List.mem_filter.mp hc).2
      exact List.count_cons_of_ne hcx xs
    show ((x :: ((firstOccur xs).filter (fun y => decide (y ≠ x)))).map
        (fun c => (x :: xs).count c)).sum = xs.length + 1
    rw [List.map_cons, List.sum_cons, hcongr, List.count_cons_self]
    by_cases hx : x ∈ xs
    · have hperm : firstOccur xs ~
          x :: (firstOccur xs).filter (fun y => decide (y ≠ x)) :=
        perm_cons_filter_ne (nodup_firstOccur xs) (mem_firstOccur.mpr hx)
      have hsum := (hperm.map (fun c => xs.count c)).sum_eq
      rw [List.map_cons, List.sum_cons] at hsum
      rw [ih] at hsum
      omega
    · have hxF : x ∉ firstOccur xs := fun hc => hx (mem_firstOccur.mp hc)
      have hfix : (firstOccur xs).filter (fun y => decide (y ≠ x)) =
          firstOccur xs :=
        List.filter_eq_self.mpr
          (fun y hy => decide_eq_true (fun e => hxF (e ▸ hy)))
      rw [hfix, ih, List.count_eq_zero.mpr hx]
      omega

/-! ## Lemmas about string cleaning -/

theorem mem_pyStrip {cs : List Char} {c : Char} (h : c ∈ pyStrip cs) :
    c ∈ cs := by
  unfold pyStrip at h
  rw [List.mem_reverse] at h
  have h1 := List.dropWhile_subset (l := (cs.dropWhile isPySpace).reverse) isPySpace h
  rw [List.mem_reverse] at h1
  exact List.dropWhile_subset isPySpace h1

theorem head?_pyStrip {cs : List Char} {c : Char}
    (h : (pyStrip cs).head? = some c) : isPySpace c = false := by
  unfold pyStrip at h
  rw [List.head?_reverse] at h
  obtain ⟨t, ht⟩ :=
    List.dropWhile_suffix (l := (cs.dropWhile isPySpace).reverse) isPySpace
  have hz : ((cs.dropWhile isPySpace).reverse).getLast? = some c := by
    rw [← ht, List.getLast?_append, h]
    rfl
  rw [List.getLast?_reverse] at hz
  have hnot := List.head?_dropWhile_not isPySpace cs
  rw [hz] at hnot
  exact hnot

theorem getLast?_pyStrip {cs : List Char} {c : Char}
    (h : (pyStrip cs).getLast? = some c) : isPySpace c = false := by
  unfold pyStrip at h
  rw [List.getLast?_reverse] at h
  have := List.head?_dropWhile_not isPySpace (cs.dropWhile isPySpace).reverse
  rw [h] at this
  exact this

/-! ## Characterizations of the filter predicates -/

theorem typePred_eq_true {sel : Selection} {r : Record} :
    typePred sel r = true ↔ ∃ t, r.type = some t ∧ t ∈ sel.types := by
  cases ht : r.type <;> simp [typePred, ht]

theorem massPred_eq_true {sel : Selection} {r : Record} :
    massPred sel r = true ↔
      ∃ m, r.mass = some m ∧ sel.mmin ≤ m ∧ m ≤ sel.mmax := by
  cases hm : r.mass <;> simp [massPred, hm]

theorem yearPred_eq_true {sel : Selection} {r : Record} :
    yearPred sel r = true ↔
      ∃ y, r.year = some y ∧ (sel.ymin : ℚ) ≤ y ∧ y ≤ (sel.ymax : ℚ) := by
  cases hy : r.year <;> simp [yearPred, hy]

/-- The function `cleanClassification` leaves no digits and no surrounding whitespace. -/
theorem cleanClassification_clean (s : String) :
    (∀ c ∈ (cleanClassification s).data, c.isDigit = false) ∧
    (∀ c, (cleanClassification s).data.head? = some c → isPySpace c = false) ∧
    (∀ c, (cleanClassification s).data.getLast? = some c → isPySpace c = false) := by
  refine ⟨fun c hc => ?_, fun c hc => head?_pyStrip hc,
    fun c hc => getLast?_pyStrip hc⟩
  have h1 : c ∈ removeDigits s.data := mem_pyStrip hc
  have h2 := (List.mem_filter.mp h1).2
  simpa using h2

/-! ## Concrete fixtures (the worked scenario of the specification)

The rational arithmetic of Batteries is `@[irreducible]` by default; the
fixtures are concrete, so we allow `decide`/`rfl` to evaluate it. -/

attribute [local semireducible] Rat.mul Rat.add Rat.sub Rat.inv Rat.ofScientific

def rawA : RawRecord :=
  { id := 1, name := "Aachen", nametype := "Valid", recclass := "L6",
    mass_g := some 500, fall := "Fell", year := "2000",
    reclat := some 50, reclong := some 6, geolocation := "(50, 6)" }

def rawB : RawRecord :=
  { id := 2, name := "Aarhus", nametype := "Valid", recclass := "H5",
    mass_g := some 1500, fall := "Found", year := "2000",
    reclat := some 56, reclong := some 10, geolocation := "(56, 10)" }

def rawC : RawRecord :=
  { id := 3, name := "Abee", nametype := "Valid", recclass := "CM2",
    mass_g := some 3000, fall := "Found", year := "1999",
    reclat := some 54, reclong := some (-113), geolocation := "(54, -113)" }

def rawU : RawRecord :=
  { id := 4, name := "Unk", nametype := "Valid", recclass := "Foo7",
    mass_g := none, fall := "Found", year := "unknown",
    reclat := none, reclong := none, geolocation := "" }

/-- The canonical Dataset built from the three-record scenario. -/
def dsABC : List Record :=
  addType (read_meteorite_date [rawA, rawB, rawC]).1

def selAll : Selection :=
  { types := ["Carbonaceous Chondrite", "Ordinary Chondrite"],
    ymin := 1399, ymax := 2025, mmin := 0, mmax := 100000 }

def selEmptyTypes : Selection :=
  { types := [], ymin := 1399, ymax := 2025, mmin := 0, mmax := 100000 }

def selYearOnlyA : Selection :=
  { types := ["Ordinary Chondrite"], ymin := 1999, ymax := 2000,
    mmin := 0, mmax := 1000 }

def selYearOnlyB : Selection :=
  { types := [], ymin := 1999, ymax := 2000, mmin := 500, mmax := 2000 }

/-- The cleaned, classified first record of the scenario. -/
def recA : Record :=
  { cleanRecord rawA with type := some "Ordinary Chondrite" }

/-- A record whose classification code has no entry in the lookup. -/
def recFoo : Record :=
  { id := 9, name := "X", classification := "Foo", mass := none,
    discovery_type := "Found", year := none, latitude := none,
    longitude := none, type := none }

/-! ## Claims -/

/-- C1 (counterexample): the claim that an empty selected-category set
makes the Filter Engine return an empty result is false on the code:
line 333 guards the type filter with `if selected_types:`, so an empty
selection skips type filtering entirely.  On the three-record scenario
Dataset with empty selected types and permissive year and mass intervals
the result is non-empty. -/
theorem C1_counterexample :
    selEmptyTypes.types = [] ∧ filterEngine dsABC selEmptyTypes ≠ [] := by
  constructor
  · rfl
  · intro h
    have := congrArg List.length h
    revert this
    decide

/-- C1 (amended): when the selected-category set is empty the Filter
Engine skips the type predicate altogether, so the result is the
canonical Dataset filtered only by the mass interval, year presence and
year interval — which need not be empty. -/
theorem C1_empty_selection_skips_type_filter
    (df : List Record) (sel : Selection) (h : sel.types = []) :
    filterEngine df sel =
      ((df.filter (massPred sel)).filter
        (fun r => r.year.isSome)).filter (yearPred sel) := by
  unfold filterEngine
  rw [h]
  rfl

/-- C1 (witness for the amended theorem). -/
theorem C1_witness :
    filterEngine dsABC selEmptyTypes =
      ((dsABC.filter (massPred selEmptyTypes)).filter
        (fun r => r.year.isSome)).filter (yearPred selEmptyTypes) :=
  C1_empty_selection_skips_type_filter dsABC selEmptyTypes rfl

/-- C2: with a non-empty selected-category set, the Filter Engine keeps
exactly the records of the input whose category is selected, whose mass
is present and inside the inclusive mass interval, and whose year is
present and inside the inclusive year interval; records with absent
mass or absent year never pass. -/
theorem C2_filter_membership (df : List Record) (sel : Selection)
    (h : sel.types ≠ []) (r : Record) :
    r ∈ filterEngine df sel ↔
      r ∈ df ∧ (∃ t, r.type = some t ∧ t ∈ sel.types) ∧
      (∃ m, r.mass = some m ∧ sel.mmin ≤ m ∧ m ≤ sel.mmax) ∧
      (∃ y, r.year = some y ∧ (sel.ymin : ℚ) ≤ y ∧ y ≤ (sel.ymax : ℚ)) := by
  have hne : sel.types.isEmpty = false := List.isEmpty_eq_false.mpr h
  unfold filterEngine
  simp only [hne, Bool.false_eq_true, if_false, List.mem_filter]
  constructor
  · rintro ⟨⟨⟨⟨hdf, ht⟩, hm⟩, -⟩, hy⟩
    exact ⟨hdf, typePred_eq_true.mp ht, massPred_eq_true.mp hm,
      yearPred_eq_true.mp hy⟩
  · rintro ⟨hdf, ht, hm, hy⟩
    have hs : r.year.isSome = true := by
      obtain ⟨y, hy', -⟩ := hy
      rw [hy']
      rfl
    exact ⟨⟨⟨⟨hdf, typePred_eq_true.mpr ht⟩, massPred_eq_true.mpr hm⟩, hs⟩,
      yearPred_eq_true.mpr hy⟩

/-- C2 (witness): the first scenario record passes the filter for a
non-empty selection containing its category. -/
theorem C2_witness : recA ∈ filterEngine dsABC selAll :=
  (C2_filter_membership dsABC selAll (by decide) recA).mpr
    ⟨by decide,
     ⟨"Ordinary Chondrite", by decide, by decide⟩,
     ⟨500, by decide, by decide, by decide⟩,
     ⟨2000, by decide, by decide, by decide⟩⟩

/-- C7: the Filter Engine is a pure function — the same Dataset and
selection give the identical result — and its result is a sublist of the
canonical Dataset, i.e. insertion order restricted to the matching rows
(a stable filter, no reordering). -/
theorem C7_pure_stable_filter (df : List Record) (sel : Selection) :
    filterEngine df sel = filterEngine df sel ∧
    List.Sublist (filterEngine df sel) df := by
  refine ⟨rfl, ?_⟩
  have h0 : List.Sublist
      (if sel.types.isEmpty then df else df.filter (typePred sel)) df := by
    split
    · exact List.Sublist.refl df
    · exact List.filter_sublist df
  exact (List.filter_sublist _).trans ((List.filter_sublist _).trans
    ((List.filter_sublist _).trans h0))

/-- C8: filtering never mutates the canonical Dataset: the whole
filtering pass of `main` (lines 330–350, the display `astype` cast
included) writes only the derived copy, so the canonical record list —
every record, every field, the order — is unchanged. -/
theorem C8_canonical_untouched (st : AppState) (sel : Selection) :
    (applyFilters st sel).meteorite_data = st.meteorite_data := rfl

/-- C3: the Top-N-by-mass view first restricts to rows with present mass
and present year inside the interval; it has `min 10 k` rows (so at most
10, exactly `k` when `k < 10` qualify, empty when `k = 0`); every output
row is a qualifying record paired with its mass divided by 1000
(kilograms); and the output is ordered ascending by that mass. -/
theorem C3_top_mass_view (df : List Record) (ymin ymax : Int) :
    (chart_top_mass_by_year df ymin ymax).length =
      min 10 (qualifying df ymin ymax).length ∧
    (∀ p ∈ chart_top_mass_by_year df ymin ymax,
      p.1 ∈ qualifying df ymin ymax ∧
      ∃ m, p.1.mass = some m ∧ p.2 = m / 1000) ∧
    (chart_top_mass_by_year df ymin ymax).Pairwise
      (fun p q => p.2 ≤ q.2) := by
  refine ⟨?_, ?_, ?_⟩
  · show (pySortAsc (fun p : Record × ℚ => p.2) _).length = _
    rw [(perm_pySortAsc (fun p : Record × ℚ => p.2) _).length_eq,
      List.length_map, List.length_take,
      (perm_pySortDesc massKey _).length_eq]
  · intro p hp
    have hp1 := (perm_pySortAsc (fun p : Record × ℚ => p.2) _).mem_iff.mp hp
    obtain ⟨r, hr, rfl⟩ := List.mem_map.mp hp1
    have hrq : r ∈ qualifying df ymin ymax :=
      (perm_pySortDesc massKey _).mem_iff.mp (List.mem_of_mem_take hr)
    refine ⟨hrq, ?_⟩
    have hmem := (List.mem_filter.mp (List.mem_filter.mp hrq).1).2
    have hmass : r.mass.isSome = true := by
      simp only [Bool.and_eq_true] at hmem
      exact hmem.1
    obtain ⟨m, hm⟩ := Option.isSome_iff_exists.mp hmass
    refine ⟨m, hm, ?_⟩
    show massKey r / 1000 = m / 1000
    rw [massKey, hm]
    rfl
  · exact sorted_pySortAsc (fun p : Record × ℚ => p.2) _

/-- C3 (witness): on the scenario Dataset all three records qualify for
the interval [1999, 2000], and the view has `min 10 3 = 3` rows. -/
theorem C3_witness :
    (chart_top_mass_by_year dsABC 1999 2000).length =
      min 10 (qualifying dsABC 1999 2000).length :=
  (C3_top_mass_view dsABC 1999 2000).1

/-- C4: the category-totals view consists of one entry per distinct
non-absent category carrying that category's record count; it is sorted
by count descending; entries with equal counts appear in first-encounter
order (the order of the underlying counting table, expressed as a filter
identity per count value); and the counts sum to the number of records
with a non-absent category. -/
theorem C4_category_totals (df : List Record) :
    List.Perm ((chart_type_distribution df).map Prod.fst)
      (firstOccur (typesOf df)) ∧
    (∀ p ∈ chart_type_distribution df, p.2 = (typesOf df).count p.1) ∧
    (chart_type_distribution df).Pairwise (fun p q => q.2 ≤ p.2) ∧
    (∀ n : Nat,
      (chart_type_distribution df).filter (fun p => decide (p.2 = n)) =
        (countsFor (typesOf df)).filter (fun p => decide (p.2 = n))) ∧
    ((chart_type_distribution df).map Prod.snd).sum =
      (typesOf df).length := by
  have hperm : List.Perm (chart_type_distribution df)
      (countsFor (typesOf df)) :=
    (perm_pySortDesc (fun p : String × Nat => p.2) _).trans
      (perm_pySortDesc (fun p : String × Nat => p.2) _)
  refine ⟨?_, ?_, ?_, ?_, ?_⟩
  · have hk : (countsFor (typesOf df)).map Prod.fst =
        firstOccur (typesOf df) := by
      unfold countsFor
      rw [List.map_map]
      exact List.map_id _
    exact hk ▸ hperm.map Prod.fst
  · intro p hp
    have hp' := hperm.mem_iff.mp hp
    unfold countsFor at hp'
    obtain ⟨c, -, rfl⟩ := List.mem_map.mp hp'
    rfl
  · exact sorted_pySortDesc (fun p : String × Nat => p.2) _
  · intro n
    show (pySortDesc (fun p : String × Nat => p.2)
        (pySortDesc (fun p : String × Nat => p.2) _)).filter _ = _
    rw [filter_key_pySortDesc, filter_key_pySortDesc, List.reverse_reverse]
  · rw [(hperm.map Prod.snd).sum_eq]
    unfold countsFor
    rw [List.map_map]
    exact sum_counts (typesOf df)

/-- C4 (witness): on the scenario Dataset the view's counts sum to the
number of records with a non-absent category. -/
theorem C4_witness :
    ((chart_type_distribution dsABC).map Prod.snd).sum =
      (typesOf dsABC).length :=
  (C4_category_totals dsABC).2.2.2.2

/-- C5: the Loader/Cleaner drops no row — the returned Dataset has
exactly as many records as the raw input and the reported total is the
raw count taken before cleaning — and each record's year is the result
of the total (never-raising) numeric coercion of the raw year text,
which maps malformed values to the missing marker. -/
theorem C5_loader_total (raws : List RawRecord) :
    (read_meteorite_date raws).2 = raws.length ∧
    (read_meteorite_date raws).1.length = raws.length ∧
    ∀ r ∈ raws, cleanRecord r ∈ (read_meteorite_date raws).1 ∧
      (cleanRecord r).year = pyToNumeric r.year :=
  ⟨rfl, by simp [read_meteorite_date],
    fun r hr => ⟨List.mem_map_of_mem cleanRecord hr, rfl⟩⟩

/-- C5 (witness): a raw row with the non-numeric year `"unknown"` is kept
(count preserved) and its year is coerced to the missing marker. -/
theorem C5_witness :
    (read_meteorite_date [rawU]).2 = 1 ∧
    (cleanRecord rawU ∈ (read_meteorite_date [rawU]).1 ∧
      (cleanRecord rawU).year = pyToNumeric rawU.year) ∧
    (cleanRecord rawU).year = none :=
  ⟨(C5_loader_total [rawU]).1,
   (C5_loader_total [rawU]).2.2 rawU (List.mem_singleton.mpr rfl),
   by decide⟩

/-- C6: every record produced by the Loader/Cleaner has a classification
code with no digit characters and no leading or trailing whitespace. -/
theorem C6_cleaned_codes (raws : List RawRecord) (r : Record)
    (h : r ∈ (read_meteorite_date raws).1) :
    (∀ c ∈ r.classification.data, c.isDigit = false) ∧
    (∀ c, r.classification.data.head? = some c → isPySpace c = false) ∧
    (∀ c, r.classification.data.getLast? = some c → isPySpace c = false) := by
  obtain ⟨raw, -, rfl⟩ := List.mem_map.mp h
  exact cleanClassification_clean raw.recclass

/-- C6 (witness): the cleaned code of raw class `"CM2"` starts with `'C'`,
which is not whitespace; its digit was removed. -/
theorem C6_witness :
    (cleanRecord rawC).classification.data.head? = some 'C' ∧
    isPySpace 'C' = false :=
  ⟨by decide,
   (C6_cleaned_codes [rawC] (cleanRecord rawC) (by decide)).2.1 'C'
     (by decide)⟩

/-- C9: a record whose cleaned classification code has no entry in the
static lookup is assigned an absent category by the Classifier (dict
lookup misses become `NaN`, never an error), and classification is a
deterministic function of the cleaned code. -/
theorem C9_unmapped_absent (df : List Record) (r : Record)
    (h : r ∈ addType df)
    (hu : r.classification ∉ meteorite_class.map Prod.fst) :
    r.type = none ∧
    ∀ c₁ c₂ : String, c₁ = c₂ → classify c₁ = classify c₂ := by
  refine ⟨?_, fun c₁ c₂ e => e ▸ rfl⟩
  obtain ⟨x, -, rfl⟩ := List.mem_map.mp h
  show classify x.classification = none
  have hfind : meteorite_class.find? (fun p => p.1 == x.classification)
      = none := by
    rw [List.find?_eq_none]
    intro p hp hbeq
    exact hu (List.mem_map.mpr ⟨p, hp, beq_iff_eq.mp hbeq⟩)
  unfold classify
  rw [hfind]
  rfl

/-- C9 (witness): the unmapped code `"Foo"` yields an absent category. -/
theorem C9_witness :
    ({ recFoo with type := classify recFoo.classification } : Record).type
      = none :=
  (C9_unmapped_absent [recFoo]
    { recFoo with type := classify recFoo.classification }
    (by decide) (by decide)).1

/-- C10: the Top-N-by-mass view rendered by `main` is computed from the
canonical Dataset and the year slider only (line 382 passes
`meteorite_data` and `selected_year_range`): two selections agreeing on
the year interval — however much they differ in selected categories or
mass interval — produce the identical view. -/
theorem C10_top_mass_ignores_type_mass (d : List Record)
    (sel₁ sel₂ : Selection) (h1 : sel₁.ymin = sel₂.ymin)
    (h2 : sel₁.ymax = sel₂.ymax) :
    runTopMassView d sel₁ = runTopMassView d sel₂ := by
  unfold runTopMassView
  rw [h1, h2]

/-- C10 (witness): two selections differing in categories and mass bounds
but agreeing on the year interval give the same view. -/
theorem C10_witness :
    runTopMassView dsABC selYearOnlyA = runTopMassView dsABC selYearOnlyB ∧
    selYearOnlyA.types ≠ selYearOnlyB.types ∧
    selYearOnlyA.mmin ≠ selYearOnlyB.mmin :=
  ⟨C10_top_mass_ignores_type_mass dsABC selYearOnlyA selYearOnlyB rfl rfl,
   by decide, by decide⟩

end MeteoriteLandings
